import Mathlib

/-!
Verification development for the llmfit fit-analysis engine.

The Rust source (src/models.rs, src/hardware.rs, src/fit.rs) is shallowly
embedded here: f64 values become exact rationals (ℚ), `Option<f64>` becomes
`Option ℚ`, and the `f64::INFINITY` utilization sentinel becomes the top
element of `WithTop ℚ`.  A small explicit extended-value type `XF` models the
IEEE special values (infinities and the invalid-operation result) where a
claim is specifically about them.
-/

/-- Memory fit grade, from `FitLevel` in src/fit.rs. -/
inductive FitLevel
  | Perfect
  | Good
  | Marginal
  | TooTight
deriving DecidableEq

/-- Execution path, from `RunMode` in src/fit.rs. -/
inductive RunMode
  | Gpu
  | MoeOffload
  | CpuOffload
  | CpuOnly
deriving DecidableEq

/-- Hardware profile, from `SystemSpecs` in src/hardware.rs. -/
structure SystemSpecs where
  total_ram_gb : ℚ
  available_ram_gb : ℚ
  total_cpu_cores : ℕ
  cpu_name : String
  has_gpu : Bool
  gpu_vram_gb : Option ℚ
  unified_memory : Bool

/-- Model profile, from `LlmModel` in src/models.rs. -/
structure LlmModel where
  name : String
  provider : String
  parameter_count : String
  parameters_raw : Option ℕ
  min_ram_gb : ℚ
  recommended_ram_gb : ℚ
  min_vram_gb : Option ℚ
  quantization : String
  context_length : ℕ
  use_case : String
  is_moe : Bool
  num_experts : Option ℕ
  active_experts : Option ℕ
  active_parameters : Option ℕ

/-- Bytes-per-parameter lookup, from `LlmModel::quant_bpp` in src/models.rs. -/
def LlmModel.quant_bpp (m : LlmModel) : ℚ :=
  if m.quantization = "F32" then 4
  else if m.quantization = "F16" ∨ m.quantization = "BF16" then 2
  else if m.quantization = "Q8_0" then 1
  else if m.quantization = "Q6_K" then 3/4
  else if m.quantization = "Q5_K_M" then 5/8
  else if m.quantization = "Q4_K_M" ∨ m.quantization = "Q4_0" then 1/2
  else if m.quantization = "Q3_K_M" then 7/16
  else if m.quantization = "Q2_K" then 5/16
  else 1/2

/-- Active-expert VRAM estimate, from `LlmModel::moe_active_vram_gb` in
src/models.rs: defined only for MoE models with `active_parameters` present;
`max(size_gb * 1.1, 0.5)` where `size_gb = active_params * bpp / 2^30`. -/
def LlmModel.moe_active_vram_gb (m : LlmModel) : Option ℚ :=
  if m.is_moe = false then none
  else
    match m.active_parameters with
    | none => none
    | some ap =>
      let bpp := m.quant_bpp
      let size_gb := ((ap : ℚ) * bpp) / (1024 * 1024 * 1024)
      some (max (size_gb * (11/10)) (1/2))

/-- Offloaded-expert RAM estimate, from `LlmModel::moe_offloaded_ram_gb` in
src/models.rs: needs `active_parameters` and `parameters_raw`; a non-positive
inactive count is clamped to zero. -/
def LlmModel.moe_offloaded_ram_gb (m : LlmModel) : Option ℚ :=
  if m.is_moe = false then none
  else
    match m.active_parameters, m.parameters_raw with
    | some a, some t =>
      let inactive : ℚ := (t : ℚ) - (a : ℚ)
      if inactive ≤ 0 then some 0
      else some ((inactive * m.quant_bpp) / (1024 * 1024 * 1024))
    | _, _ => none

/-- Fit result, from `ModelFit` in src/fit.rs.  `utilization_pct` lives in
`WithTop ℚ`, with the top element standing for the `f64::INFINITY` sentinel. -/
structure ModelFit where
  model : LlmModel
  fit_level : FitLevel
  run_mode : RunMode
  memory_required_gb : ℚ
  memory_available_gb : ℚ
  utilization_pct : WithTop ℚ
  notes : List String
  moe_offloaded_gb : Option ℚ

/-- Memory-headroom grading, from `score_fit` in src/fit.rs.  The Rust
`mem_required > mem_available` guard is `mem_available < mem_required`, and
`mem_available >= mem_required * 1.2` is `mem_required * (12/10) ≤
mem_available`. -/
def score_fit (mem_required mem_available recommended : ℚ) (run_mode : RunMode) : FitLevel :=
  if mem_available < mem_required then FitLevel.TooTight
  else
    match run_mode with
    | RunMode.Gpu =>
      if recommended ≤ mem_available then FitLevel.Perfect
      else if mem_required * (12/10) ≤ mem_available then FitLevel.Good
      else FitLevel.Marginal
    | RunMode.MoeOffload =>
      if mem_required * (12/10) ≤ mem_available then FitLevel.Good
      else FitLevel.Marginal
    | RunMode.CpuOffload =>
      if mem_required * (12/10) ≤ mem_available then FitLevel.Good
      else FitLevel.Marginal
    | RunMode.CpuOnly => FitLevel.Marginal

/-- CPU-only pool selection, from `cpu_path` in src/fit.rs. -/
def cpu_path (model : LlmModel) (system : SystemSpecs) (notes : List String) :
    RunMode × ℚ × ℚ × List String :=
  let notes := notes ++ ["CPU-only: model loaded into system RAM"]
  let notes :=
    if model.is_moe then
      notes ++ ["MoE architecture, but expert offloading requires a GPU"]
    else notes
  (RunMode.CpuOnly, model.min_ram_gb, system.available_ram_gb, notes)

/-- Generic fallback taken when MoE expert offloading is not viable, from the
tail of `moe_offload_path` in src/fit.rs (after the early return). -/
def moe_fallback (model : LlmModel) (system : SystemSpecs) (system_vram total_vram : ℚ)
    (notes : List String) : RunMode × ℚ × ℚ × List String :=
  if model.min_ram_gb ≤ system.available_ram_gb then
    let notes := notes ++
      ["MoE: insufficient VRAM for expert offloading",
       "Spilling entire model to system RAM",
       "Performance will be significantly reduced"]
    (RunMode.CpuOffload, model.min_ram_gb, system.available_ram_gb, notes)
  else
    let notes := notes ++
      ["Insufficient VRAM and system RAM",
       "Need " ++ toString total_vram ++ " GB VRAM (full) or " ++
         toString (model.moe_active_vram_gb.getD total_vram) ++ " GB (MoE offload) + RAM"]
    (RunMode.Gpu, total_vram, system_vram, notes)

/-- MoE expert-offload attempt, from `moe_offload_path` in src/fit.rs.  The
missing offloaded-RAM estimate defaults to 0 via `unwrap_or(0.0)`. -/
def moe_offload_path (model : LlmModel) (system : SystemSpecs) (system_vram total_vram : ℚ)
    (notes : List String) : RunMode × ℚ × ℚ × List String :=
  match model.moe_active_vram_gb with
  | some moe_vram =>
    let offloaded_gb := model.moe_offloaded_ram_gb.getD 0
    if moe_vram ≤ system_vram ∧ offloaded_gb ≤ system.available_ram_gb then
      let notes := notes ++
        ["MoE: " ++ toString (model.active_experts.getD 0) ++ "/" ++
           toString (model.num_experts.getD 0) ++ " experts active in VRAM (" ++
           toString moe_vram ++ " GB)",
         "Inactive experts offloaded to system RAM (" ++ toString offloaded_gb ++ " GB)"]
      (RunMode.MoeOffload, moe_vram, system_vram, notes)
    else moe_fallback model system system_vram total_vram notes
  | none => moe_fallback model system system_vram total_vram notes

/-- Effective minimum VRAM, from `ModelFit::analyze` step 1 in src/fit.rs:
`model.min_vram_gb.unwrap_or(model.min_ram_gb)`. -/
def min_vram_eff (model : LlmModel) : ℚ :=
  model.min_vram_gb.getD model.min_ram_gb

/-- Run-mode / pool selection, from the decision tree inside
`ModelFit::analyze` in src/fit.rs (the big conditional binding
`(run_mode, mem_required, mem_available)`). -/
def select_path (model : LlmModel) (system : SystemSpecs) : RunMode × ℚ × ℚ × List String :=
  let notes : List String := []
  let min_vram := min_vram_eff model
  if system.has_gpu then
    if system.unified_memory then
      match system.gpu_vram_gb with
      | some pool =>
        let notes := notes ++ ["Unified memory: GPU and CPU share the same pool"]
        let notes :=
          if model.is_moe then
            notes ++ ["MoE: " ++ toString (model.active_experts.getD 0) ++ "/" ++
              toString (model.num_experts.getD 0) ++
              " experts active (all share unified memory pool)"]
          else notes
        (RunMode.Gpu, min_vram, pool, notes)
      | none => cpu_path model system notes
    else
      match system.gpu_vram_gb with
      | some system_vram =>
        if min_vram ≤ system_vram then
          let notes := notes ++ ["GPU: model loaded into VRAM"]
          let notes :=
            if model.is_moe then
              notes ++ ["MoE: all " ++ toString (model.num_experts.getD 0) ++
                " experts loaded in VRAM (optimal)"]
            else notes
          (RunMode.Gpu, min_vram, system_vram, notes)
        else if model.is_moe then
          moe_offload_path model system system_vram min_vram notes
        else if model.min_ram_gb ≤ system.available_ram_gb then
          let notes := notes ++
            ["GPU: insufficient VRAM, spilling to system RAM",
             "Performance will be significantly reduced"]
          (RunMode.CpuOffload, model.min_ram_gb, system.available_ram_gb, notes)
        else
          let notes := notes ++
            ["Insufficient VRAM and system RAM",
             "Need " ++ toString min_vram ++ " GB VRAM or " ++
               toString model.min_ram_gb ++ " GB system RAM"]
          (RunMode.Gpu, min_vram, system_vram, notes)
      | none => cpu_path model system (notes ++ ["GPU detected but VRAM unknown"])
  else cpu_path model system notes

/-- Fit analysis, from `ModelFit::analyze` in src/fit.rs: select the path,
grade the headroom, compute utilization (infinite on a non-positive pool),
append supplementary notes, and populate `moe_offloaded_gb` only for the
MoeOffload mode. -/
def ModelFit.analyze (model : LlmModel) (system : SystemSpecs) : ModelFit :=
  let p := select_path model system
  let run_mode := p.1
  let mem_required := p.2.1
  let mem_available := p.2.2.1
  let notes := p.2.2.2
  let fit_level := score_fit mem_required mem_available model.recommended_ram_gb run_mode
  let utilization_pct : WithTop ℚ :=
    if 0 < mem_available then ((mem_required / mem_available) * 100 : ℚ) else ⊤
  let notes :=
    if run_mode = RunMode.CpuOnly then notes ++ ["No GPU -- inference will be slow"]
    else notes
  let notes :=
    if (run_mode = RunMode.CpuOffload ∨ run_mode = RunMode.CpuOnly) ∧
        system.total_cpu_cores < 4 then
      notes ++ ["Low CPU core count may bottleneck inference"]
    else notes
  let moe_offloaded_gb :=
    if run_mode = RunMode.MoeOffload then model.moe_offloaded_ram_gb else none
  { model := model
    fit_level := fit_level
    run_mode := run_mode
    memory_required_gb := mem_required
    memory_available_gb := mem_available
    utilization_pct := utilization_pct
    notes := notes
    moe_offloaded_gb := moe_offloaded_gb }

/-! Concrete profiles used as witnesses and counterexamples. -/

def S_cpu : SystemSpecs :=
  { total_ram_gb := 32, available_ram_gb := 16, total_cpu_cores := 8, cpu_name := "cpu"
    has_gpu := false, gpu_vram_gb := none, unified_memory := false }

def S_zero : SystemSpecs :=
  { total_ram_gb := 0, available_ram_gb := 0, total_cpu_cores := 8, cpu_name := "cpu"
    has_gpu := false, gpu_vram_gb := none, unified_memory := false }

def S_gpu8 : SystemSpecs :=
  { total_ram_gb := 64, available_ram_gb := 32, total_cpu_cores := 8, cpu_name := "cpu"
    has_gpu := true, gpu_vram_gb := some 8, unified_memory := false }

def M_a : LlmModel :=
  { name := "a", provider := "p", parameter_count := "8B", parameters_raw := none
    min_ram_gb := 8, recommended_ram_gb := 12, min_vram_gb := none
    quantization := "Q4_K_M", context_length := 4096, use_case := "chat"
    is_moe := false, num_experts := none, active_experts := none, active_parameters := none }

def M_big : LlmModel :=
  { name := "big", provider := "p", parameter_count := "70B", parameters_raw := none
    min_ram_gb := 20, recommended_ram_gb := 24, min_vram_gb := none
    quantization := "Q4_K_M", context_length := 4096, use_case := "chat"
    is_moe := false, num_experts := none, active_experts := none, active_parameters := none }

def M_c : LlmModel :=
  { name := "c", provider := "p", parameter_count := "30B", parameters_raw := none
    min_ram_gb := 20, recommended_ram_gb := 24, min_vram_gb := some 16
    quantization := "Q4_K_M", context_length := 4096, use_case := "chat"
    is_moe := false, num_experts := none, active_experts := none, active_parameters := none }

def M_moe0 : LlmModel :=
  { name := "moe0", provider := "p", parameter_count := "x", parameters_raw := none
    min_ram_gb := 50, recommended_ram_gb := 60, min_vram_gb := some 100
    quantization := "Q8_0", context_length := 4096, use_case := "chat"
    is_moe := true, num_experts := none, active_experts := none
    active_parameters := some 1073741824 }

def M_moe1 : LlmModel :=
  { name := "moe1", provider := "p", parameter_count := "x", parameters_raw := some 5368709120
    min_ram_gb := 50, recommended_ram_gb := 60, min_vram_gb := some 100
    quantization := "Q8_0", context_length := 4096, use_case := "chat"
    is_moe := true, num_experts := some 8, active_experts := some 2
    active_parameters := some 21474836480 }

/-! Claims C4 and C9: the ranker.  `rank_models_by_fit` in src/fit.rs calls
Rust's stable `sort_by` with a three-stage comparator; the embedding uses
the stable `List.mergeSort` with the Bool relation `fit_le a b`, which holds
exactly when the comparator does not answer `gt` -- the standard reading of
`sort_by`.  `fitRank` and `modeRank` name the preference orders
Perfect < Good < Marginal < TooTight and Gpu < MoeOffload < CpuOffload <
CpuOnly used to state sortedness. -/

/-- First comparator stage, from the fit-level match in
`rank_models_by_fit` in src/fit.rs. -/
def fit_cmp : FitLevel → FitLevel → Ordering
  | FitLevel.Perfect, FitLevel.Perfect => Ordering.eq
  | FitLevel.Perfect, _ => Ordering.lt
  | _, FitLevel.Perfect => Ordering.gt
  | FitLevel.Good, FitLevel.Good => Ordering.eq
  | FitLevel.Good, _ => Ordering.lt
  | _, FitLevel.Good => Ordering.gt
  | FitLevel.Marginal, FitLevel.Marginal => Ordering.eq
  | FitLevel.Marginal, _ => Ordering.lt
  | _, FitLevel.Marginal => Ordering.gt
  | _, _ => Ordering.eq

/-- Second comparator stage, from the run-mode match in
`rank_models_by_fit` in src/fit.rs. -/
def mode_cmp : RunMode → RunMode → Ordering
  | RunMode.Gpu, RunMode.Gpu => Ordering.eq
  | RunMode.Gpu, _ => Ordering.lt
  | _, RunMode.Gpu => Ordering.gt
  | RunMode.MoeOffload, RunMode.MoeOffload => Ordering.eq
  | RunMode.MoeOffload, _ => Ordering.lt
  | _, RunMode.MoeOffload => Ordering.gt
  | RunMode.CpuOffload, RunMode.CpuOffload => Ordering.eq
  | RunMode.CpuOffload, _ => Ordering.lt
  | _, RunMode.CpuOffload => Ordering.gt
  | _, _ => Ordering.eq

/-- The full comparator closure of `rank_models_by_fit` in src/fit.rs:
fit level, then run mode, then utilization (total order on the NaN-free
utilization domain, where `partial_cmp(..).unwrap()` is `compare`). -/
def compare_fits (a b : ModelFit) : Ordering :=
  let fc := fit_cmp a.fit_level b.fit_level
  if fc ≠ Ordering.eq then fc
  else
    let mc := mode_cmp a.run_mode b.run_mode
    if mc ≠ Ordering.eq then mc
    else compare a.utilization_pct b.utilization_pct

def fit_le (a b : ModelFit) : Bool := decide (compare_fits a b ≠ Ordering.gt)

def rank_models_by_fit (models : List ModelFit) : List ModelFit :=
  models.mergeSort fit_le

def fitRank : FitLevel → ℕ
  | FitLevel.Perfect => 0
  | FitLevel.Good => 1
  | FitLevel.Marginal => 2
  | FitLevel.TooTight => 3

def modeRank : RunMode → ℕ
  | RunMode.Gpu => 0
  | RunMode.MoeOffload => 1
  | RunMode.CpuOffload => 2
  | RunMode.CpuOnly => 3

def rank_key (r : ModelFit) : ℕ × ℕ × WithTop ℚ :=
  (fitRank r.fit_level, modeRank r.run_mode, r.utilization_pct)

def rank_le_prop (a b : ModelFit) : Prop :=
  fitRank a.fit_level < fitRank b.fit_level ∨
  (fitRank a.fit_level = fitRank b.fit_level ∧
    (modeRank a.run_mode < modeRank b.run_mode ∨
     (modeRank a.run_mode = modeRank b.run_mode ∧
      a.utilization_pct ≤ b.utilization_pct)))

/-! Claim C10: NaN-freedom of the utilization computation.  The rational
embedding has no special values, so the f64 layer of fit.rs lines 100-104 is
modelled explicitly by the extended domain `XF` with the two infinities and
the invalid-operation value, and the IEEE rules for the operations that
appear there. -/

/-- Extended value domain for the f64 special cases: finite rationals, the
two infinities, and the invalid-operation result. -/
inductive XF
  | fin (q : ℚ)
  | pinf
  | ninf
  | nan
deriving DecidableEq

/-- IEEE division on the extended domain (signed zero is not modelled: a
zero divisor counts as positive zero). -/
def XF.div : XF → XF → XF
  | XF.nan, _ => XF.nan
  | _, XF.nan => XF.nan
  | XF.pinf, XF.pinf => XF.nan
  | XF.pinf, XF.ninf => XF.nan
  | XF.ninf, XF.pinf => XF.nan
  | XF.ninf, XF.ninf => XF.nan
  | XF.pinf, XF.fin b => if 0 ≤ b then XF.pinf else XF.ninf
  | XF.ninf, XF.fin b => if 0 ≤ b then XF.ninf else XF.pinf
  | XF.fin _, XF.pinf => XF.fin 0
  | XF.fin _, XF.ninf => XF.fin 0
  | XF.fin a, XF.fin b =>
    if b = 0 then (if a = 0 then XF.nan else if 0 < a then XF.pinf else XF.ninf)
    else XF.fin (a / b)

/-- IEEE multiplication on the extended domain. -/
def XF.mul : XF → XF → XF
  | XF.nan, _ => XF.nan
  | _, XF.nan => XF.nan
  | XF.pinf, XF.pinf => XF.pinf
  | XF.pinf, XF.ninf => XF.ninf
  | XF.ninf, XF.pinf => XF.ninf
  | XF.ninf, XF.ninf => XF.pinf
  | XF.pinf, XF.fin b => if b = 0 then XF.nan else if 0 < b then XF.pinf else XF.ninf
  | XF.fin a, XF.pinf => if a = 0 then XF.nan else if 0 < a then XF.pinf else XF.ninf
  | XF.ninf, XF.fin b => if b = 0 then XF.nan else if 0 < b then XF.ninf else XF.pinf
  | XF.fin a, XF.ninf => if a = 0 then XF.nan else if 0 < a then XF.ninf else XF.pinf
  | XF.fin a, XF.fin b => XF.fin (a * b)

/-- The order of `partial_cmp` on the extended domain: `none` exactly when
an invalid value is involved, the comparison otherwise. -/
def XF.pcmp : XF → XF → Option Ordering
  | XF.nan, _ => none
  | _, XF.nan => none
  | XF.pinf, XF.pinf => some Ordering.eq
  | XF.pinf, _ => some Ordering.gt
  | _, XF.pinf => some Ordering.lt
  | XF.ninf, XF.ninf => some Ordering.eq
  | XF.ninf, _ => some Ordering.lt
  | _, XF.ninf => some Ordering.gt
  | XF.fin a, XF.fin b => some (compare a b)

/-- The utilization computation of `ModelFit::analyze` (src/fit.rs lines
100-104) carried out in the extended domain: divide and scale when the pool
is positive, the infinity sentinel otherwise. -/
def utilization_xf (mem_required mem_available : ℚ) : XF :=
  if 0 < mem_available then ((XF.fin mem_required).div (XF.fin mem_available)).mul (XF.fin 100)
  else XF.pinf

/-! Projection lemmas: `ModelFit.analyze` wires `score_fit` and the
utilization formula to its own record fields. -/

theorem analyze_run_mode (m : LlmModel) (s : SystemSpecs) :
    (ModelFit.analyze m s).run_mode = (select_path m s).1 := rfl

theorem analyze_required (m : LlmModel) (s : SystemSpecs) :
    (ModelFit.analyze m s).memory_required_gb = (select_path m s).2.1 := rfl

theorem analyze_available (m : LlmModel) (s : SystemSpecs) :
    (ModelFit.analyze m s).memory_available_gb = (select_path m s).2.2.1 := rfl

theorem analyze_fit_level (m : LlmModel) (s : SystemSpecs) :
    (ModelFit.analyze m s).fit_level =
      score_fit (ModelFit.analyze m s).memory_required_gb
        (ModelFit.analyze m s).memory_available_gb m.recommended_ram_gb
        (ModelFit.analyze m s).run_mode := rfl

theorem analyze_util (m : LlmModel) (s : SystemSpecs) :
    (ModelFit.analyze m s).utilization_pct =
      if 0 < (ModelFit.analyze m s).memory_available_gb then
        ((((ModelFit.analyze m s).memory_required_gb /
          (ModelFit.analyze m s).memory_available_gb) * 100 : ℚ) : WithTop ℚ)
      else ⊤ := rfl

/-! Basic facts about `score_fit`. -/

theorem score_fit_tootight (r a rec : ℚ) (rm : RunMode) (h : a < r) :
    score_fit r a rec rm = FitLevel.TooTight := by
  simp [score_fit, h]

theorem score_fit_cpuonly (r a rec : ℚ) :
    score_fit r a rec RunMode.CpuOnly = FitLevel.Marginal ∨
    score_fit r a rec RunMode.CpuOnly = FitLevel.TooTight := by
  unfold score_fit
  split
  · exact Or.inr rfl
  · exact Or.inl rfl

theorem score_fit_offload (r a rec : ℚ) (rm : RunMode)
    (h : rm = RunMode.MoeOffload ∨ rm = RunMode.CpuOffload) :
    score_fit r a rec rm =
      (if a < r then FitLevel.TooTight
       else if r * (12/10) ≤ a then FitLevel.Good
       else FitLevel.Marginal) := by
  rcases h with h | h <;> subst h <;> rfl

/-- C1: for every model and hardware profile, if the fit result's required
memory strictly exceeds its available memory then the fit level is TooTight,
regardless of the selected run mode. -/
theorem analyze_overcommit_tootight (m : LlmModel) (s : SystemSpecs)
    (h : (ModelFit.analyze m s).memory_available_gb <
         (ModelFit.analyze m s).memory_required_gb) :
    (ModelFit.analyze m s).fit_level = FitLevel.TooTight := by
  rw [analyze_fit_level]
  exact score_fit_tootight _ _ _ _ h

/-- Witness for C1 at a concrete over-committed input. -/
theorem analyze_overcommit_tootight_witness :
    (ModelFit.analyze M_big S_cpu).memory_available_gb <
      (ModelFit.analyze M_big S_cpu).memory_required_gb ∧
    (ModelFit.analyze M_big S_cpu).fit_level = FitLevel.TooTight :=
  ⟨by decide, analyze_overcommit_tootight M_big S_cpu (by decide)⟩

/-- C5: a CpuOnly fit result is graded Marginal or TooTight, never Perfect or
Good. -/
theorem analyze_cpuonly_capped (m : LlmModel) (s : SystemSpecs)
    (h : (ModelFit.analyze m s).run_mode = RunMode.CpuOnly) :
    (ModelFit.analyze m s).fit_level = FitLevel.Marginal ∨
    (ModelFit.analyze m s).fit_level = FitLevel.TooTight := by
  rw [analyze_fit_level, h]
  exact score_fit_cpuonly _ _ _

/-- Witness for C5 at a concrete GPU-less input. -/
theorem analyze_cpuonly_capped_witness :
    (ModelFit.analyze M_a S_cpu).run_mode = RunMode.CpuOnly ∧
    ((ModelFit.analyze M_a S_cpu).fit_level = FitLevel.Marginal ∨
     (ModelFit.analyze M_a S_cpu).fit_level = FitLevel.TooTight) :=
  ⟨by decide, analyze_cpuonly_capped M_a S_cpu (by decide)⟩

/-- C6: a MoeOffload or CpuOffload fit result is never Perfect; it is
TooTight when required exceeds available, Good when available is at least
1.2 times required, and Marginal otherwise. -/
theorem analyze_offload_never_perfect (m : LlmModel) (s : SystemSpecs)
    (h : (ModelFit.analyze m s).run_mode = RunMode.MoeOffload ∨
         (ModelFit.analyze m s).run_mode = RunMode.CpuOffload) :
    (ModelFit.analyze m s).fit_level ≠ FitLevel.Perfect ∧
    (ModelFit.analyze m s).fit_level =
      (if (ModelFit.analyze m s).memory_available_gb <
          (ModelFit.analyze m s).memory_required_gb then FitLevel.TooTight
       else if (ModelFit.analyze m s).memory_required_gb * (12/10) ≤
          (ModelFit.analyze m s).memory_available_gb then FitLevel.Good
       else FitLevel.Marginal) := by
  have he := score_fit_offload (ModelFit.analyze m s).memory_required_gb
    (ModelFit.analyze m s).memory_available_gb m.recommended_ram_gb
    (ModelFit.analyze m s).run_mode h
  rw [analyze_fit_level, he]
  refine ⟨?_, rfl⟩
  split
  · simp
  · split <;> simp

/-- Witness for C6 at a concrete CpuOffload input. -/
theorem analyze_offload_never_perfect_witness :
    ((ModelFit.analyze M_c S_gpu8).run_mode = RunMode.MoeOffload ∨
     (ModelFit.analyze M_c S_gpu8).run_mode = RunMode.CpuOffload) ∧
    (ModelFit.analyze M_c S_gpu8).fit_level ≠ FitLevel.Perfect :=
  ⟨Or.inr (by decide),
   (analyze_offload_never_perfect M_c S_gpu8 (Or.inr (by decide))).1⟩

/-- C7: analysis is total: every model/hardware pair yields exactly one fit
result carrying one of the four fit levels and one of the four run modes. -/
theorem analyze_total_result (m : LlmModel) (s : SystemSpecs) :
    ((ModelFit.analyze m s).fit_level = FitLevel.Perfect ∨
     (ModelFit.analyze m s).fit_level = FitLevel.Good ∨
     (ModelFit.analyze m s).fit_level = FitLevel.Marginal ∨
     (ModelFit.analyze m s).fit_level = FitLevel.TooTight) ∧
    ((ModelFit.analyze m s).run_mode = RunMode.Gpu ∨
     (ModelFit.analyze m s).run_mode = RunMode.MoeOffload ∨
     (ModelFit.analyze m s).run_mode = RunMode.CpuOffload ∨
     (ModelFit.analyze m s).run_mode = RunMode.CpuOnly) := by
  constructor
  · cases h : (ModelFit.analyze m s).fit_level <;> simp
  · cases h : (ModelFit.analyze m s).run_mode <;> simp

/-- C8: utilization is required over available times 100 on a positive pool,
and the infinity sentinel on a zero pool. -/
theorem analyze_utilization_spec (m : LlmModel) (s : SystemSpecs) :
    (0 < (ModelFit.analyze m s).memory_available_gb →
      (ModelFit.analyze m s).utilization_pct =
        (((ModelFit.analyze m s).memory_required_gb /
          (ModelFit.analyze m s).memory_available_gb) * 100 : ℚ)) ∧
    ((ModelFit.analyze m s).memory_available_gb = 0 →
      (ModelFit.analyze m s).utilization_pct = ⊤) := by
  constructor
  · intro h
    rw [analyze_util, if_pos h]
  · intro h
    rw [analyze_util, if_neg]
    rw [h]
    exact lt_irrefl 0

/-- Witness for C8 at a positive pool and at a zero pool. -/
theorem analyze_utilization_spec_witness :
    (0 < (ModelFit.analyze M_a S_cpu).memory_available_gb ∧
      (ModelFit.analyze M_a S_cpu).utilization_pct =
        (((ModelFit.analyze M_a S_cpu).memory_required_gb /
          (ModelFit.analyze M_a S_cpu).memory_available_gb) * 100 : ℚ)) ∧
    ((ModelFit.analyze M_a S_zero).memory_available_gb = 0 ∧
      (ModelFit.analyze M_a S_zero).utilization_pct = ⊤) :=
  ⟨⟨by decide, (analyze_utilization_spec M_a S_cpu).1 (by decide)⟩,
   ⟨by decide, (analyze_utilization_spec M_a S_zero).2 (by decide)⟩⟩

/-! Claims C2 and C3: the MoE offload gating and its fallback. -/

theorem moe_active_vram_none (m : LlmModel) (h : m.active_parameters = none) :
    m.moe_active_vram_gb = none := by
  unfold LlmModel.moe_active_vram_gb
  rw [h]
  split <;> rfl

/-- C2 counterexample: a MoE model with `num_experts`, `active_experts` and
`parameters_raw` all absent (only `active_parameters` present) still takes
the expert-offload path and is assigned run mode MoeOffload, contradicting
the claim that any absent MoE field forces dense treatment. -/
theorem moe_offload_despite_missing_fields :
    M_moe0.is_moe = true ∧ M_moe0.num_experts = none ∧ M_moe0.active_experts = none ∧
    M_moe0.parameters_raw = none ∧
    (ModelFit.analyze M_moe0 S_gpu8).run_mode = RunMode.MoeOffload := by
  refine ⟨rfl, rfl, rfl, rfl, ?_⟩
  norm_num +decide [ModelFit.analyze, select_path, moe_offload_path, moe_fallback,
    min_vram_eff, LlmModel.moe_active_vram_gb, LlmModel.moe_offloaded_ram_gb,
    LlmModel.quant_bpp, M_moe0, S_gpu8, max_def]

/-- C2 amended: only a missing `active_parameters` (or `is_moe` false)
disables the expert-offload path; the run mode is then never MoeOffload.
Absent `num_experts`, `active_experts` or `parameters_raw` do not prevent
offloading (the missing offloaded-RAM estimate defaults to zero, and the
expert counts are used only in notes). -/
theorem no_moe_offload_without_active_params (m : LlmModel) (s : SystemSpecs)
    (h : m.active_parameters = none) :
    (ModelFit.analyze m s).run_mode ≠ RunMode.MoeOffload := by
  rw [analyze_run_mode]
  have hm := moe_active_vram_none m h
  unfold select_path moe_offload_path cpu_path moe_fallback
  rw [hm]
  iterate 12 (all_goals (try split))
  all_goals (try simp_all)
  all_goals (split <;> simp_all)

/-- Witness for the amended C2 at a concrete input with no
`active_parameters`. -/
theorem no_moe_offload_without_active_params_witness :
    M_a.active_parameters = none ∧
    (ModelFit.analyze M_a S_cpu).run_mode ≠ RunMode.MoeOffload :=
  ⟨rfl, no_moe_offload_without_active_params M_a S_cpu rfl⟩

/-- C3 counterexample: a MoE model whose offload attempt is not viable
(active-expert VRAM 22 GB does not fit the 8 GB pool) and whose minimum RAM
exceeds available RAM gets a fallback result whose required memory is the
dense minimum VRAM (100 GB), not the MoE active-expert figure (22 GB) the
claim announces. -/
theorem moe_fallback_required_is_min_vram :
    M_moe1.is_moe = true ∧
    M_moe1.moe_active_vram_gb = some 22 ∧
    (∀ mv, M_moe1.moe_active_vram_gb = some mv →
      ¬ (mv ≤ 8 ∧ M_moe1.moe_offloaded_ram_gb.getD 0 ≤ S_gpu8.available_ram_gb)) ∧
    ¬ M_moe1.min_ram_gb ≤ S_gpu8.available_ram_gb ∧
    (ModelFit.analyze M_moe1 S_gpu8).memory_available_gb = 8 ∧
    (ModelFit.analyze M_moe1 S_gpu8).memory_required_gb = 100 ∧
    ¬ (ModelFit.analyze M_moe1 S_gpu8).memory_required_gb = 22 := by
  have hact : M_moe1.moe_active_vram_gb = some 22 := by
    norm_num +decide [LlmModel.moe_active_vram_gb, LlmModel.quant_bpp, M_moe1, max_def]
  have hmain : (ModelFit.analyze M_moe1 S_gpu8).run_mode = RunMode.Gpu ∧
      (ModelFit.analyze M_moe1 S_gpu8).memory_required_gb = 100 ∧
      (ModelFit.analyze M_moe1 S_gpu8).memory_available_gb = 8 := by
    norm_num +decide [ModelFit.analyze, select_path, moe_offload_path, moe_fallback,
      min_vram_eff, LlmModel.moe_active_vram_gb, LlmModel.moe_offloaded_ram_gb,
      LlmModel.quant_bpp, M_moe1, S_gpu8, max_def]
  refine ⟨rfl, hact, ?_, by decide, hmain.2.2, hmain.2.1, ?_⟩
  · intro mv hmv
    rw [hact] at hmv
    obtain rfl := Option.some.inj hmv
    rintro ⟨h1, -⟩
    norm_num at h1
  · rw [hmain.2.1]
    norm_num

/-- C3 amended: when the MoE offload attempt is not viable and the minimum
RAM also exceeds available system RAM, the fallback reports run mode Gpu
with required memory equal to the dense effective minimum VRAM and the VRAM
pool as available memory (the MoE active figure appears only in a note). -/
theorem moe_insufficient_fallback (m : LlmModel) (s : SystemSpecs) (vram : ℚ)
    (hg : s.has_gpu = true) (hu : s.unified_memory = false)
    (hv : s.gpu_vram_gb = some vram) (hm : m.is_moe = true)
    (hfit : ¬ min_vram_eff m ≤ vram)
    (hnv : ∀ mv, m.moe_active_vram_gb = some mv →
      ¬ (mv ≤ vram ∧ m.moe_offloaded_ram_gb.getD 0 ≤ s.available_ram_gb))
    (hram : ¬ m.min_ram_gb ≤ s.available_ram_gb) :
    (ModelFit.analyze m s).run_mode = RunMode.Gpu ∧
    (ModelFit.analyze m s).memory_required_gb = min_vram_eff m ∧
    (ModelFit.analyze m s).memory_available_gb = vram := by
  rw [analyze_run_mode, analyze_required, analyze_available]
  unfold select_path
  simp only [hg, hu, hv, hm, if_true, Bool.false_eq_true, if_false]
  rw [if_neg hfit]
  unfold moe_offload_path moe_fallback
  cases hma : m.moe_active_vram_gb with
  | none => dsimp only; rw [if_neg hram]; exact ⟨rfl, rfl, rfl⟩
  | some mv =>
    dsimp only
    rw [if_neg (hnv mv hma), if_neg hram]
    exact ⟨rfl, rfl, rfl⟩

/-- Witness for the amended C3 at the concrete non-viable MoE input. -/
theorem moe_insufficient_fallback_witness :
    (ModelFit.analyze M_moe1 S_gpu8).run_mode = RunMode.Gpu ∧
    (ModelFit.analyze M_moe1 S_gpu8).memory_required_gb = min_vram_eff M_moe1 ∧
    (ModelFit.analyze M_moe1 S_gpu8).memory_available_gb = 8 :=
  moe_insufficient_fallback M_moe1 S_gpu8 8 rfl rfl rfl rfl (by decide)
    (fun mv hmv => by
      have hact : M_moe1.moe_active_vram_gb = some 22 := by
        norm_num +decide [LlmModel.moe_active_vram_gb, LlmModel.quant_bpp, M_moe1, max_def]
      rw [hact] at hmv
      obtain rfl := Option.some.inj hmv
      rintro ⟨h1, -⟩
      norm_num at h1)
    (by decide)

theorem fit_cmp_eq_iff (a b : FitLevel) : fit_cmp a b = Ordering.eq ↔ fitRank a = fitRank b := by
  cases a <;> cases b <;> decide

theorem fit_cmp_lt_iff (a b : FitLevel) : fit_cmp a b = Ordering.lt ↔ fitRank a < fitRank b := by
  cases a <;> cases b <;> decide

theorem fit_cmp_gt_iff (a b : FitLevel) : fit_cmp a b = Ordering.gt ↔ fitRank b < fitRank a := by
  cases a <;> cases b <;> decide

theorem mode_cmp_eq_iff (a b : RunMode) : mode_cmp a b = Ordering.eq ↔ modeRank a = modeRank b := by
  cases a <;> cases b <;> decide

theorem mode_cmp_lt_iff (a b : RunMode) : mode_cmp a b = Ordering.lt ↔ modeRank a < modeRank b := by
  cases a <;> cases b <;> decide

theorem mode_cmp_gt_iff (a b : RunMode) : mode_cmp a b = Ordering.gt ↔ modeRank b < modeRank a := by
  cases a <;> cases b <;> decide

theorem rank_le_iff (a b : ModelFit) : fit_le a b = true ↔ rank_le_prop a b := by
  unfold fit_le compare_fits
  rw [decide_eq_true_eq]
  by_cases hf : fit_cmp a.fit_level b.fit_level = Ordering.eq
  · rw [if_neg (not_not_intro hf)]
    have hf' := (fit_cmp_eq_iff _ _).mp hf
    by_cases hm : mode_cmp a.run_mode b.run_mode = Ordering.eq
    · rw [if_neg (not_not_intro hm)]
      have hm' := (mode_cmp_eq_iff _ _).mp hm
      unfold rank_le_prop
      rw [Ne, compare_gt_iff_gt]
      constructor
      · intro h
        exact Or.inr ⟨hf', Or.inr ⟨hm', not_lt.mp h⟩⟩
      · rintro (h | ⟨-, h | ⟨-, h⟩⟩)
        · omega
        · omega
        · exact not_lt.mpr h
    · rw [if_pos hm]
      rcases ho : mode_cmp a.run_mode b.run_mode with _ | _ | _
      · simp only [ne_eq]
        constructor
        · intro _
          exact Or.inr ⟨hf', Or.inl ((mode_cmp_lt_iff _ _).mp ho)⟩
        · intro _
          decide
      · exact absurd ho hm
      · have hgt := (mode_cmp_gt_iff _ _).mp ho
        simp only [ne_eq, not_true_eq_false, false_iff]
        rintro (h | ⟨-, h | ⟨h, -⟩⟩) <;> omega
  · rw [if_pos hf]
    rcases ho : fit_cmp a.fit_level b.fit_level with _ | _ | _
    · simp only [ne_eq]
      constructor
      · intro _
        exact Or.inl ((fit_cmp_lt_iff _ _).mp ho)
      · intro _
        decide
    · exact absurd ho hf
    · have hgt := (fit_cmp_gt_iff _ _).mp ho
      simp only [ne_eq, not_true_eq_false, false_iff]
      rintro (h | ⟨h, -⟩) <;> omega

theorem rank_le_trans_bool (a b c : ModelFit)
    (h1 : fit_le a b = true) (h2 : fit_le b c = true) : fit_le a c = true := by
  rw [rank_le_iff] at h1 h2 ⊢
  unfold rank_le_prop at h1 h2 ⊢
  rcases h1 with h1 | ⟨e1, h1⟩
  · rcases h2 with h2 | ⟨e2, h2⟩
    · left; omega
    · left; omega
  · rcases h2 with h2 | ⟨e2, h2⟩
    · left; omega
    · refine Or.inr ⟨by omega, ?_⟩
      rcases h1 with h1 | ⟨f1, h1⟩
      · rcases h2 with h2 | ⟨f2, h2⟩
        · left; omega
        · left; omega
      · rcases h2 with h2 | ⟨f2, h2⟩
        · left; omega
        · exact Or.inr ⟨by omega, le_trans h1 h2⟩

theorem rank_le_total_bool (a b : ModelFit) : (fit_le a b || fit_le b a) = true := by
  rw [Bool.or_eq_true, rank_le_iff, rank_le_iff]
  unfold rank_le_prop
  by_cases hf : fitRank a.fit_level = fitRank b.fit_level
  · by_cases hm : modeRank a.run_mode = modeRank b.run_mode
    · rcases le_total a.utilization_pct b.utilization_pct with h | h
      · exact Or.inl (Or.inr ⟨hf, Or.inr ⟨hm, h⟩⟩)
      · exact Or.inr (Or.inr ⟨hf.symm, Or.inr ⟨hm.symm, h⟩⟩)
    · rcases Nat.lt_or_ge (modeRank a.run_mode) (modeRank b.run_mode) with h | h
      · exact Or.inl (Or.inr ⟨hf, Or.inl h⟩)
      · exact Or.inr (Or.inr ⟨hf.symm, Or.inl (by omega)⟩)
  · rcases Nat.lt_or_ge (fitRank a.fit_level) (fitRank b.fit_level) with h | h
    · exact Or.inl (Or.inl h)
    · exact Or.inr (Or.inl (by omega))

theorem rank_key_le (a b : ModelFit) (h : rank_key a = rank_key b) : fit_le a b = true := by
  rw [rank_le_iff]
  unfold rank_key at h
  rw [Prod.mk.injEq, Prod.mk.injEq] at h
  exact Or.inr ⟨h.1, Or.inr ⟨h.2.1, le_of_eq h.2.2⟩⟩

/-- C4: `rank_models_by_fit` returns a permutation of its input that is
sorted by fit level (better first), then run-mode preference in the order
Gpu, MoeOffload, CpuOffload, CpuOnly, then utilization ascending, and is
stable: for every value of the three-part key, the elements carrying that
key appear in the output in their input order. -/
theorem rank_models_by_fit_correct (xs : List ModelFit) :
    (rank_models_by_fit xs).Perm xs ∧
    (rank_models_by_fit xs).Pairwise rank_le_prop ∧
    ∀ k : ℕ × ℕ × WithTop ℚ,
      (rank_models_by_fit xs).filter (fun r => decide (rank_key r = k)) =
        xs.filter (fun r => decide (rank_key r = k)) := by
  refine ⟨List.mergeSort_perm xs fit_le, ?_, ?_⟩
  · have hs := @List.sorted_mergeSort ModelFit fit_le rank_le_trans_bool rank_le_total_bool xs
    exact hs.imp (fun h => (rank_le_iff _ _).mp h)
  · intro k
    have hsub : (xs.filter (fun r => decide (rank_key r = k))).Sublist xs := List.filter_sublist xs
    have hpair : (xs.filter (fun r => decide (rank_key r = k))).Pairwise
        (fun a b => fit_le a b = true) := by
      refine List.pairwise_of_forall_mem_list ?_
      intro a ha b hb
      have ha' := List.of_mem_filter ha
      have hb' := List.of_mem_filter hb
      rw [decide_eq_true_eq] at ha' hb'
      exact rank_key_le a b (ha'.trans hb'.symm)
    have hsl : (xs.filter (fun r => decide (rank_key r = k))).Sublist (rank_models_by_fit xs) :=
      @List.sublist_mergeSort ModelFit fit_le xs rank_le_trans_bool rank_le_total_bool _ hpair hsub
    have hself : (xs.filter (fun r => decide (rank_key r = k))).filter
        (fun r => decide (rank_key r = k)) = xs.filter (fun r => decide (rank_key r = k)) := by
      refine List.filter_eq_self.mpr ?_
      intro a ha
      exact (List.mem_filter.mp ha).2
    have h2 : (xs.filter (fun r => decide (rank_key r = k))).Sublist
        ((rank_models_by_fit xs).filter (fun r => decide (rank_key r = k))) := by
      rw [← hself]
      exact List.Sublist.filter _ hsl
    have hperm : ((rank_models_by_fit xs).filter (fun r => decide (rank_key r = k))).Perm
        (xs.filter (fun r => decide (rank_key r = k))) :=
      (List.mergeSort_perm xs fit_le).filter _
    exact (h2.eq_of_length hperm.length_eq.symm).symm

/-- C9: `rank_models_by_fit` is idempotent. -/
theorem rank_models_by_fit_idempotent (xs : List ModelFit) :
    rank_models_by_fit (rank_models_by_fit xs) = rank_models_by_fit xs := by
  unfold rank_models_by_fit
  exact List.mergeSort_of_sorted
    (@List.sorted_mergeSort ModelFit fit_le rank_le_trans_bool rank_le_total_bool xs)

theorem utilization_xf_shape (r a : ℚ) :
    (∃ q, utilization_xf r a = XF.fin q) ∨ utilization_xf r a = XF.pinf := by
  unfold utilization_xf
  split
  · rename_i h
    left
    refine ⟨(r / a) * 100, ?_⟩
    simp only [XF.div, XF.mul]
    rw [if_neg (ne_of_gt h)]
  · right
    rfl

theorem XF.pcmp_isSome (x y : XF) (hx : x ≠ XF.nan) (hy : y ≠ XF.nan) :
    (XF.pcmp x y).isSome = true := by
  cases x <;> cases y <;> simp_all [XF.pcmp]

/-- C10: the utilization of every analysis result is never the invalid
value (it is a finite rational or positive infinity), so the ranker's
comparison of any two such utilizations is always defined and the unwrap in
`rank_models_by_fit` cannot panic.  Finiteness of the input memory fields is
inherent in the rational embedding, and non-negativity is not even needed:
the guarded division can never be zero-by-zero. -/
theorem analyze_utilization_never_nan (m : LlmModel) (s : SystemSpecs) (n : LlmModel) (t : SystemSpecs) :
    utilization_xf (ModelFit.analyze m s).memory_required_gb
      (ModelFit.analyze m s).memory_available_gb ≠ XF.nan ∧
    (XF.pcmp
      (utilization_xf (ModelFit.analyze m s).memory_required_gb
        (ModelFit.analyze m s).memory_available_gb)
      (utilization_xf (ModelFit.analyze n t).memory_required_gb
        (ModelFit.analyze n t).memory_available_gb)).isSome = true := by
  have h1 := utilization_xf_shape (ModelFit.analyze m s).memory_required_gb
    (ModelFit.analyze m s).memory_available_gb
  have h2 := utilization_xf_shape (ModelFit.analyze n t).memory_required_gb
    (ModelFit.analyze n t).memory_available_gb
  have hx : utilization_xf (ModelFit.analyze m s).memory_required_gb
      (ModelFit.analyze m s).memory_available_gb ≠ XF.nan := by
    rcases h1 with ⟨q, hq⟩ | hq <;> rw [hq] <;> simp
  have hy : utilization_xf (ModelFit.analyze n t).memory_required_gb
      (ModelFit.analyze n t).memory_available_gb ≠ XF.nan := by
    rcases h2 with ⟨q, hq⟩ | hq <;> rw [hq] <;> simp
  exact ⟨hx, XF.pcmp_isSome _ _ hx hy⟩
